import Mathlib

/-!
Verification of the ROHC compressor sources against their natural-language
specification.  The definitions below are shallow embeddings of the C
functions of `c_udp.c` (the UDP compression profile) and
`c_uncompressed.c` (the Uncompressed compression profile).  Machine
integers are modelled as `Nat` (all the fields involved are counters and
16-bit header fields that the C code never overflows on the paths studied
here); C `int` return codes are modelled as `Int` so that the failure
convention (negative size) is kept; byte buffers are `List Nat`.
-/

/-- The UDP header (`struct udphdr`): source port, destination port,
length and checksum, each a 16-bit field stored in network byte order. -/
structure udphdr where
  source : Nat
  dest : Nat
  len : Nat
  check : Nat
deriving DecidableEq, Repr

/-- The UDP part of the profile compression context (`struct
sc_udp_context` together with its `struct udp_tmp_vars tmp` member):
the number of times the checksum field was added to the compressed
header, the previous UDP header, and the per-call temporary
`send_udp_dynamic` (a C `int`, initialised to `-1` at creation). -/
structure sc_udp_context where
  udp_checksum_change_count : Nat
  old_udp : udphdr
  tmp_send_udp_dynamic : Int
deriving DecidableEq, Repr

/-- The ROHC packet types used by the two profiles (`rohc_packet_t`). -/
inductive rohc_packet_t where
  | PACKET_IR
  | PACKET_IR_DYN
  | PACKET_UO_0
  | PACKET_UO_1
  | PACKET_UOR_2
  | PACKET_NORMAL
  | PACKET_UNKNOWN
deriving DecidableEq, Repr

/-- The compression states (`rohc_comp_state_t`). -/
inductive rohc_comp_state_t where
  | ROHC_COMP_STATE_IR
  | ROHC_COMP_STATE_FO
  | ROHC_COMP_STATE_SO
deriving DecidableEq, Repr

/-- Embedding of `udp_changed_udp_dynamic` (c_udp.c): returns the C
return value together with the updated UDP context (the C function
mutates `udp_checksum_change_count` in place). -/
def udp_changed_udp_dynamic (oa_repetitions_nr : Nat) (ctx : sc_udp_context)
    (udp : udphdr) : Int × sc_udp_context :=
  if (udp.check ≠ 0 ∧ ctx.old_udp.check = 0) ∨
     (udp.check = 0 ∧ ctx.old_udp.check ≠ 0) ∨
     ctx.udp_checksum_change_count < oa_repetitions_nr then
    if (udp.check ≠ 0 ∧ ctx.old_udp.check = 0) ∨
       (udp.check = 0 ∧ ctx.old_udp.check ≠ 0) then
      (1, { ctx with udp_checksum_change_count := 0 })
    else
      (1, ctx)
  else
    (0, ctx)

/-- Embedding of `udp_decide_state` (c_udp.c).  The generic decision
`rohc_comp_rfc3095_decide_state` lives outside the given sources, so its
result for the current packet is taken as the parameter
`rfc3095_decide`; the UDP-specific part only overrides it with the IR
state when `tmp.send_udp_dynamic` is truthy (non-zero). -/
def udp_decide_state (rfc3095_decide : rohc_comp_state_t)
    (ctx : sc_udp_context) : rohc_comp_state_t :=
  if ctx.tmp_send_udp_dynamic ≠ 0 then
    rohc_comp_state_t.ROHC_COMP_STATE_IR
  else
    rfc3095_decide

/-- Embedding of `udp_code_uo_remainder` (c_udp.c): append the two bytes
of the UDP checksum to the packet under build iff the checksum of the
given UDP header is non-zero.  Returns the buffer and the new counter. -/
def udp_code_uo_remainder (udp : udphdr) (dest : List Nat) (counter : Nat) :
    List Nat × Nat :=
  if udp.check ≠ 0 then
    (dest ++ [udp.check / 256, udp.check % 256], counter + 2)
  else
    (dest, counter)

/-- Embedding of `udp_code_static_udp_part` (c_udp.c): append the two
bytes of the source port then the two bytes of the destination port. -/
def udp_code_static_udp_part (udp : udphdr) (dest : List Nat) (counter : Nat) :
    List Nat × Nat :=
  (dest ++ [udp.source / 256, udp.source % 256, udp.dest / 256, udp.dest % 256],
   counter + 4)

/-- Embedding of `udp_code_dynamic_udp_part` (c_udp.c): append the two
bytes of the UDP checksum and increment `udp_checksum_change_count`. -/
def udp_code_dynamic_udp_part (ctx : sc_udp_context) (udp : udphdr)
    (dest : List Nat) (counter : Nat) : sc_udp_context × List Nat × Nat :=
  ({ ctx with udp_checksum_change_count := ctx.udp_checksum_change_count + 1 },
   dest ++ [udp.check / 256, udp.check % 256], counter + 2)

/-- Embedding of `c_udp_encode` (c_udp.c).  `rohc_comp_rfc3095_encode` is
not part of the given sources; it is taken as the parameter
`rfc3095_encode`, which produces the returned size, the selected packet
type, and the updated `udp_checksum_change_count`.  Modelled from the
spec: the generic engine reaches the UDP sub-state only through the
vtable entries registered in `c_udp_create`, and of those only
`udp_code_dynamic_udp_part` mutates it (it increments
`udp_checksum_change_count`), so the generic encoder is modelled as a
transformer of that counter alone. -/
def c_udp_encode (rfc3095_encode : Nat → Int × rohc_packet_t × Nat)
    (oa_repetitions_nr : Nat) (ctx : sc_udp_context) (udp : udphdr) :
    Int × rohc_packet_t × sc_udp_context :=
  let chg := udp_changed_udp_dynamic oa_repetitions_nr ctx udp
  let ctx1 := { chg.2 with tmp_send_udp_dynamic := chg.1 }
  let g := rfc3095_encode ctx1.udp_checksum_change_count
  let ctx2 := { ctx1 with udp_checksum_change_count := g.2.2 }
  if g.1 < 0 then
    (g.1, g.2.1, ctx2)
  else if g.2.1 = rohc_packet_t.PACKET_IR ∨ g.2.1 = rohc_packet_t.PACKET_IR_DYN then
    (g.1, g.2.1, { ctx2 with old_udp := udp })
  else
    (g.1, g.2.1, ctx2)

/-- The context states of the older compressor core (`rohc_c_state`),
used by the Uncompressed profile. -/
inductive rohc_c_state where
  | IR
  | FO
  | SO
deriving DecidableEq, Repr

/-- The operating mode `U_MODE` of the `rohc_mode` enumeration; modes are
kept as the raw numeric values because `c_uncompressed_feedback` feeds
the raw 2-bit mode field of a FEEDBACK-2 packet straight into
`uncompressed_change_mode`. -/
def U_MODE : Nat := 1

/-- The operating mode `O_MODE` of the `rohc_mode` enumeration. -/
def O_MODE : Nat := 2

/-- The operating mode `R_MODE` of the `rohc_mode` enumeration. -/
def R_MODE : Nat := 3

/-- The Uncompressed profile context (`struct sc_uncompressed_context`):
the number of IR packets sent, the number of Normal packets sent, and
the periodic-refresh counter. -/
structure sc_uncompressed_context where
  ir_count : Nat
  normal_count : Nat
  go_back_ir_count : Nat
deriving DecidableEq, Repr

/-- The fields of the generic compression context (`struct c_context`)
that the Uncompressed profile reads or writes: the state, the mode, the
CID and the profile-specific sub-state. -/
structure c_context where
  state : rohc_c_state
  mode : Nat
  cid : Nat
  specific : sc_uncompressed_context
deriving DecidableEq, Repr

/-- Embedding of `uncompressed_change_state` (c_uncompressed.c): reset
the `ir_count` and `normal_count` counters and change the state, but
only if the new state differs from the current one. -/
def uncompressed_change_state (ctx : c_context) (new_state : rohc_c_state) :
    c_context :=
  if ctx.state ≠ new_state then
    { ctx with
        specific := { ctx.specific with ir_count := 0, normal_count := 0 },
        state := new_state }
  else
    ctx

/-- Embedding of `uncompressed_change_mode` (c_uncompressed.c): if the
mode differs, install the new mode and force the IR state. -/
def uncompressed_change_mode (ctx : c_context) (new_mode : Nat) : c_context :=
  if ctx.mode ≠ new_mode then
    uncompressed_change_state { ctx with mode := new_mode } rohc_c_state.IR
  else
    ctx

/-- Embedding of `uncompressed_periodic_down_transition`
(c_uncompressed.c): when `go_back_ir_count` has reached the configured
`periodic_refreshes_ir_timeout`, reset it and force the IR state; then,
if the context is (still) in the FO state, increment the counter. -/
def uncompressed_periodic_down_transition (ir_timeout : Nat) (ctx : c_context) :
    c_context :=
  let ctx1 :=
    if ctx.specific.go_back_ir_count ≥ ir_timeout then
      uncompressed_change_state
        { ctx with specific := { ctx.specific with go_back_ir_count := 0 } }
        rohc_c_state.IR
    else
      ctx
  if ctx1.state = rohc_c_state.FO then
    { ctx1 with
        specific := { ctx1.specific with
          go_back_ir_count := ctx1.specific.go_back_ir_count + 1 } }
  else
    ctx1

/-- Embedding of `uncompressed_decide_state` (c_uncompressed.c): leave
IR for FO once `MAX_IR_COUNT` IR packets have been sent (the macro
`MAX_IR_COUNT` is taken as the parameter `max_ir_count`), then apply the
U-mode periodic down transition. -/
def uncompressed_decide_state (max_ir_count ir_timeout : Nat) (ctx : c_context) :
    c_context :=
  let ctx1 :=
    if ctx.state = rohc_c_state.IR ∧ ctx.specific.ir_count ≥ max_ir_count then
      uncompressed_change_state ctx rohc_c_state.FO
    else
      ctx
  if ctx1.mode = U_MODE then
    uncompressed_periodic_down_transition ir_timeout ctx1
  else
    ctx1

/-- Modelled from the spec: `code_cid_values` (cid.c is not among the
given sources) for the small-CID configuration.  A CID of 1..15 is
announced by the Add-CID octet `1110 CCCC` placed before the packet type
octet; CID 0 adds nothing.  Returns the Add-CID bytes, the index
`first_position` of the packet type octet, and the counter pointing just
past that octet. -/
def code_cid_values_small (cid : Nat) : List Nat × Nat × Nat :=
  if cid = 0 then ([], 0, 1) else ([0xe0 ||| cid], 1, 2)

/-- Embedding of `uncompressed_code_IR_packet` (c_uncompressed.c),
happy path, small CIDs: Add-CID bytes, the discriminator `0xFC`, the
profile byte `0x00`, then a CRC-8 over all the bytes emitted so far with
the CRC byte itself zeroed.  `crc_calculate` (crc.c is not among the
given sources) is taken as the parameter `crc8`.  Returns the emitted
bytes, the payload offset and the returned counter. -/
def uncompressed_code_IR_packet (crc8 : List Nat → Nat) (cid : Nat) :
    List Nat × Nat × Int :=
  let c := code_cid_values_small cid
  let head := c.1 ++ [0xfc, 0x00]
  let crc := crc8 (head ++ [0])
  (head ++ [crc], 0, (c.2.2 : Int) + 2)

/-- Embedding of `uncompressed_code_normal_packet` (c_uncompressed.c),
happy path, small CIDs: Add-CID bytes then the first byte of the IP
packet; the payload offset is 1 (the rest of the IP packet is the
payload). -/
def uncompressed_code_normal_packet (cid : Nat) (ip : List Nat) :
    List Nat × Nat × Int :=
  let c := code_cid_values_small cid
  (c.1 ++ [ip.headD 0], 1, (c.2.2 : Int))

/-- Embedding of `uncompressed_code_packet` (c_uncompressed.c): build an
IR packet in the IR state (incrementing `ir_count`), a Normal packet in
the FO state (incrementing `normal_count`), and fail with size `-1` and
`PACKET_UNKNOWN` in any other state.  Returns the size, the packet type,
the payload offset, the emitted bytes and the updated context. -/
def uncompressed_code_packet (crc8 : List Nat → Nat) (ctx : c_context)
    (ip : List Nat) : Int × rohc_packet_t × Nat × List Nat × c_context :=
  match ctx.state with
  | rohc_c_state.IR =>
    let ctx1 := { ctx with
      specific := { ctx.specific with ir_count := ctx.specific.ir_count + 1 } }
    let r := uncompressed_code_IR_packet crc8 ctx.cid
    (r.2.2, rohc_packet_t.PACKET_IR, r.2.1, r.1, ctx1)
  | rohc_c_state.FO =>
    let ctx1 := { ctx with
      specific := { ctx.specific with
        normal_count := ctx.specific.normal_count + 1 } }
    let r := uncompressed_code_normal_packet ctx.cid ip
    (r.2.2, rohc_packet_t.PACKET_NORMAL, r.2.1, r.1, ctx1)
  | rohc_c_state.SO =>
    (-1, rohc_packet_t.PACKET_UNKNOWN, 0, [], ctx)

/-- Embedding of `c_uncompressed_encode` (c_uncompressed.c): decide the
state, then code the packet. -/
def c_uncompressed_encode (crc8 : List Nat → Nat)
    (max_ir_count ir_timeout : Nat) (ctx : c_context) (ip : List Nat) :
    Int × rohc_packet_t × Nat × List Nat × c_context :=
  uncompressed_code_packet crc8 (uncompressed_decide_state max_ir_count ir_timeout ctx) ip

/-- The feedback ack types (`enum` used by `feedback->acktype`). -/
inductive rohc_ack_type where
  | ACK
  | NACK
  | STATIC_NACK
  | RESERVED
deriving DecidableEq, Repr

/-- The feedback information handed to a profile (`struct c_feedback`):
the feedback type, the ack type, the whole feedback packet bytes, and
the offset and size of the profile-specific part.  `feedback->size` is
the length of `data`. -/
structure c_feedback where
  fbtype : Nat
  acktype : rohc_ack_type
  data : List Nat
  specific_offset : Nat
  specific_size : Nat
deriving DecidableEq, Repr

/-- Embedding of the option-parsing loop of `c_uncompressed_feedback`
(c_uncompressed.c): walk the TLV options; a CRC option (type 1) records
its value byte as the in-packet CRC and overwrites that byte with zero
in the buffer; every other option is skipped.  The `fuel` argument makes
the recursion structural: every iteration consumes at least one unit of
`remaining`, so running the loop with `fuel` equal to the initial
`remaining` is exact (see `parse_loop_fuel_ge`). -/
def parse_loop : Nat → List Nat → Nat → Nat → Nat → Bool →
    List Nat × Nat × Bool
  | _, data, _, 0, crc_in, used => (data, crc_in, used)
  | 0, data, _, _, crc_in, used => (data, crc_in, used)
  | fuel + 1, data, p, remaining, crc_in, used =>
    if data.getD p 0 >>> 4 = 1 then
      parse_loop fuel (data.set (p + 1) 0) (p + 1 + (data.getD p 0 &&& 0xf))
        (remaining - (1 + (data.getD p 0 &&& 0xf))) (data.getD (p + 1) 0) true
    else
      parse_loop fuel data (p + 1 + (data.getD p 0 &&& 0xf))
        (remaining - (1 + (data.getD p 0 &&& 0xf))) crc_in used

/-- The option-parsing loop of `c_uncompressed_feedback`, entered with
`remaining = feedback->specific_size - 2`. -/
def parse_feedback_options (data : List Nat) (p remaining crc_in : Nat)
    (used : Bool) : List Nat × Nat × Bool :=
  parse_loop remaining data p remaining crc_in used

/-- Helper: the loop result does not depend on the exact fuel as long as
the fuel is at least `remaining`, so the fuel in
`parse_feedback_options` is exact. -/
theorem parse_loop_fuel_ge : ∀ (f1 f2 : Nat) (data : List Nat)
    (p remaining crc_in : Nat) (used : Bool), remaining ≤ f1 → remaining ≤ f2 →
    parse_loop f1 data p remaining crc_in used =
      parse_loop f2 data p remaining crc_in used := by
  intro f1
  induction f1 with
  | zero =>
    intro f2 data p remaining crc_in used h1 _
    have hr : remaining = 0 := Nat.le_zero.mp h1
    subst hr
    cases f2 <;> rfl
  | succ f ih =>
    intro f2 data p remaining crc_in used h1 h2
    match remaining, f2 with
    | 0, 0 => rfl
    | 0, g + 1 => rfl
    | r + 1, g + 1 =>
      simp only [parse_loop]
      split_ifs with hopt <;> exact ih g _ _ _ _ _ (by omega) (by omega)

/-- Embedding of the ack-type switch at the end of the FEEDBACK-2 branch
of `c_uncompressed_feedback` (c_uncompressed.c): ACK and NACK do
nothing, STATIC-NACK forces the IR state, RESERVED is only logged. -/
def uncompressed_feedback_apply_acktype (ctx : c_context) (ack : rohc_ack_type) :
    c_context :=
  match ack with
  | rohc_ack_type.STATIC_NACK => uncompressed_change_state ctx rohc_c_state.IR
  | _ => ctx

/-- Embedding of the FEEDBACK-2 branch of `c_uncompressed_feedback`
(c_uncompressed.c), after the mode field has been read and the options
parsed: discard the feedback when a CRC option is present but its value
does not match the CRC-8 of the whole zeroed feedback; otherwise honor a
non-zero requested mode only when a CRC option was present, then apply
the ack type. -/
def uncompressed_feedback_2_core (crc8 : List Nat → Nat) (ctx : c_context)
    (mode : Nat) (pr : List Nat × Nat × Bool) (ack : rohc_ack_type) :
    List Nat × c_context :=
  if pr.2.2 = true ∧ pr.2.1 ≠ crc8 pr.1 then
    (pr.1, ctx)
  else
    (pr.1,
     uncompressed_feedback_apply_acktype
       (if mode ≠ 0 ∧ pr.2.2 = true then uncompressed_change_mode ctx mode else ctx)
       ack)

/-- Embedding of `c_uncompressed_feedback` (c_uncompressed.c).  ACKs
(type 1) do nothing; FEEDBACK-2 (type 2) reads the 2-bit mode field,
parses the options (mutating the caller's buffer) and hands over to
`uncompressed_feedback_2_core`; any other type is only logged.
`crc_calculate` is taken as the parameter `crc8`.  Returns the feedback
bytes as left by the handler and the updated context. -/
def c_uncompressed_feedback (crc8 : List Nat → Nat) (ctx : c_context)
    (fb : c_feedback) : List Nat × c_context :=
  if fb.fbtype = 1 then
    (fb.data, ctx)
  else if fb.fbtype = 2 then
    uncompressed_feedback_2_core crc8 ctx
      ((fb.data.getD fb.specific_offset 0 >>> 4) &&& 3)
      (parse_feedback_options fb.data (fb.specific_offset + 2)
        (fb.specific_size - 2) 0 false)
      fb.acktype
  else
    (fb.data, ctx)

/-- Helper: `udp_changed_udp_dynamic` never touches the stored previous
UDP header. -/
theorem udp_changed_udp_dynamic_old_udp (oa_repetitions_nr : Nat)
    (ctx : sc_udp_context) (udp : udphdr) :
    (udp_changed_udp_dynamic oa_repetitions_nr ctx udp).2.old_udp = ctx.old_udp := by
  unfold udp_changed_udp_dynamic
  split_ifs <;> rfl

/-- Helper: `udp_changed_udp_dynamic` never touches the transient
`send_udp_dynamic` field. -/
theorem udp_changed_udp_dynamic_tmp (oa_repetitions_nr : Nat)
    (ctx : sc_udp_context) (udp : udphdr) :
    (udp_changed_udp_dynamic oa_repetitions_nr ctx udp).2.tmp_send_udp_dynamic =
      ctx.tmp_send_udp_dynamic := by
  unfold udp_changed_udp_dynamic
  split_ifs <;> rfl

/-- Claim C1: inside `c_udp_encode`, the change detection
`udp_changed_udp_dynamic` returns 1 (and that value is stored as
`send_udp_dynamic`) if and only if exactly one of the current and stored
UDP checksums is zero, or `udp_checksum_change_count` is strictly below
`oa_repetitions_nr`; the change count is reset to 0 exactly when the
zero-ness flip occurred; and whenever the returned flag is set,
`udp_decide_state` selects the IR state whatever the generic RFC 3095
decision is. -/
theorem c1_udp_change_detection_forces_ir (oa_repetitions_nr : Nat)
    (ctx : sc_udp_context) (udp : udphdr) :
    ((udp_changed_udp_dynamic oa_repetitions_nr ctx udp).1 = 1 ↔
      (Xor' (udp.check = 0) (ctx.old_udp.check = 0) ∨
       ctx.udp_checksum_change_count < oa_repetitions_nr)) ∧
    ((udp_changed_udp_dynamic oa_repetitions_nr ctx udp).2.udp_checksum_change_count =
      if Xor' (udp.check = 0) (ctx.old_udp.check = 0) then 0
      else ctx.udp_checksum_change_count) ∧
    (∀ rfc3095_encode : Nat → Int × rohc_packet_t × Nat,
      (c_udp_encode rfc3095_encode oa_repetitions_nr ctx udp).2.2.tmp_send_udp_dynamic =
        (udp_changed_udp_dynamic oa_repetitions_nr ctx udp).1) ∧
    ((udp_changed_udp_dynamic oa_repetitions_nr ctx udp).1 = 1 →
      ∀ rfc3095_decide : rohc_comp_state_t,
        udp_decide_state rfc3095_decide
          { (udp_changed_udp_dynamic oa_repetitions_nr ctx udp).2 with
            tmp_send_udp_dynamic :=
              (udp_changed_udp_dynamic oa_repetitions_nr ctx udp).1 } =
          rohc_comp_state_t.ROHC_COMP_STATE_IR) := by
  refine ⟨?_, ?_, ?_, ?_⟩
  · unfold udp_changed_udp_dynamic
    split_ifs with h1 h2 <;>
      constructor <;> intro h <;> simp only [Xor'] at * <;> tauto
  · unfold udp_changed_udp_dynamic
    split_ifs with h1 h2 h3 <;> simp only [Xor'] at * <;> first | rfl | tauto
  · intro rfc3095_encode
    simp only [c_udp_encode]
    split_ifs <;> simp
  · intro h1 rfc3095_decide
    simp only [udp_decide_state, h1]
    norm_num

/-- Claim C1 witness: concrete run in which the checksum flips from zero
to non-zero, the flag is raised and the IR state is selected over a
generic SO decision. -/
theorem c1_udp_change_detection_forces_ir_witness :
    udp_decide_state rohc_comp_state_t.ROHC_COMP_STATE_SO
      { (udp_changed_udp_dynamic 3 ⟨5, ⟨1, 2, 3, 0⟩, 0⟩ ⟨1, 2, 3, 0x1234⟩).2 with
        tmp_send_udp_dynamic :=
          (udp_changed_udp_dynamic 3 ⟨5, ⟨1, 2, 3, 0⟩, 0⟩ ⟨1, 2, 3, 0x1234⟩).1 } =
      rohc_comp_state_t.ROHC_COMP_STATE_IR :=
  (c1_udp_change_detection_forces_ir 3 ⟨5, ⟨1, 2, 3, 0⟩, 0⟩ ⟨1, 2, 3, 0x1234⟩).2.2.2
    (by decide) rohc_comp_state_t.ROHC_COMP_STATE_SO

/-- Claim C2 counterexample: a `c_udp_encode` call on a context holding
`udp_checksum_change_count = 5` and a zero stored checksum, fed a packet
with a non-zero checksum and an encoder that fails (buffer too small,
size `-1`), fails yet leaves the context different from its pre-call
state: the change count has been reset to 0 and `send_udp_dynamic` has
been overwritten with 1. -/
theorem c2_failed_encode_counterexample :
    (c_udp_encode (fun cnt => (-1, rohc_packet_t.PACKET_UNKNOWN, cnt)) 3
        ⟨5, ⟨1, 2, 3, 0⟩, -1⟩ ⟨1, 2, 3, 0x1234⟩).1 < 0 ∧
    (c_udp_encode (fun cnt => (-1, rohc_packet_t.PACKET_UNKNOWN, cnt)) 3
        ⟨5, ⟨1, 2, 3, 0⟩, -1⟩ ⟨1, 2, 3, 0x1234⟩).2.2 ≠
      ⟨5, ⟨1, 2, 3, 0⟩, -1⟩ := by
  decide

/-- Claim C2 as amended: on a failed `c_udp_encode` call the stored old
UDP header is unchanged, but the transient `send_udp_dynamic` flag has
already been overwritten with the fresh change-detection result and
`udp_checksum_change_count` carries the change-detection side effect
(reset on a zero-ness flip) plus whatever the generic encoder did before
failing — so the context is not byte-identical to its pre-call state in
general. -/
theorem c2_failed_encode_amended (rfc3095_encode : Nat → Int × rohc_packet_t × Nat)
    (oa_repetitions_nr : Nat) (ctx : sc_udp_context) (udp : udphdr)
    (hfail : (c_udp_encode rfc3095_encode oa_repetitions_nr ctx udp).1 < 0) :
    (c_udp_encode rfc3095_encode oa_repetitions_nr ctx udp).2.2.old_udp = ctx.old_udp ∧
    (c_udp_encode rfc3095_encode oa_repetitions_nr ctx udp).2.2.tmp_send_udp_dynamic =
      (udp_changed_udp_dynamic oa_repetitions_nr ctx udp).1 ∧
    (c_udp_encode rfc3095_encode oa_repetitions_nr ctx udp).2.2.udp_checksum_change_count =
      (rfc3095_encode
        (udp_changed_udp_dynamic oa_repetitions_nr ctx udp).2.udp_checksum_change_count).2.2 := by
  simp only [c_udp_encode] at hfail ⊢
  split_ifs at hfail ⊢ with h1 h2 <;>
    simp_all [udp_changed_udp_dynamic_old_udp]

/-- Claim C2 amended witness: the concrete failing run of the
counterexample satisfies the amended statement. -/
theorem c2_failed_encode_amended_witness :
    (c_udp_encode (fun cnt => (-1, rohc_packet_t.PACKET_UNKNOWN, cnt)) 3
        ⟨5, ⟨1, 2, 3, 0⟩, -1⟩ ⟨1, 2, 3, 0x1234⟩).2.2.old_udp = ⟨1, 2, 3, 0⟩ ∧
    (c_udp_encode (fun cnt => (-1, rohc_packet_t.PACKET_UNKNOWN, cnt)) 3
        ⟨5, ⟨1, 2, 3, 0⟩, -1⟩ ⟨1, 2, 3, 0x1234⟩).2.2.tmp_send_udp_dynamic =
      (udp_changed_udp_dynamic 3 ⟨5, ⟨1, 2, 3, 0⟩, -1⟩ ⟨1, 2, 3, 0x1234⟩).1 ∧
    (c_udp_encode (fun cnt => (-1, rohc_packet_t.PACKET_UNKNOWN, cnt)) 3
        ⟨5, ⟨1, 2, 3, 0⟩, -1⟩ ⟨1, 2, 3, 0x1234⟩).2.2.udp_checksum_change_count =
      ((fun cnt => ((-1 : Int), rohc_packet_t.PACKET_UNKNOWN, cnt))
        (udp_changed_udp_dynamic 3 ⟨5, ⟨1, 2, 3, 0⟩, -1⟩
          ⟨1, 2, 3, 0x1234⟩).2.udp_checksum_change_count).2.2 :=
  c2_failed_encode_amended (fun cnt => (-1, rohc_packet_t.PACKET_UNKNOWN, cnt)) 3
    ⟨5, ⟨1, 2, 3, 0⟩, -1⟩ ⟨1, 2, 3, 0x1234⟩ (by decide)

/-- Claim C3: in any situation in which a UO packet can be built — the
change detection returned 0, which every non-IR state requires, so the
current checksum has the same zero-ness as the reference checksum stored
by the last dynamic-chain emission — `udp_code_uo_remainder` appends the
two checksum bytes to the packet if and only if the reference checksum
`old_udp.check` is non-zero. -/
theorem c3_uo_remainder_checksum_iff (oa_repetitions_nr : Nat)
    (ctx : sc_udp_context) (udp : udphdr) (dest : List Nat) (counter : Nat)
    (hUO : (udp_changed_udp_dynamic oa_repetitions_nr ctx udp).1 = 0) :
    udp_code_uo_remainder udp dest counter =
      if ctx.old_udp.check ≠ 0 then
        (dest ++ [udp.check / 256, udp.check % 256], counter + 2)
      else
        (dest, counter) := by
  unfold udp_changed_udp_dynamic at hUO
  split_ifs at hUO with h1 h2 <;> simp only at hUO
  · exact absurd hUO (by decide)
  · exact absurd hUO (by decide)
  · unfold udp_code_uo_remainder
    split_ifs with h3 h4 <;> first | rfl | tauto

/-- Claim C3 witness: a concrete steady UO situation (checksums both
non-zero, change count past the repetition threshold) appends exactly
the two checksum bytes. -/
theorem c3_uo_remainder_checksum_iff_witness :
    udp_code_uo_remainder ⟨1, 2, 3, 0x1234⟩ [0x93] 1 =
      (if (5 : Nat) ≠ 0 then ([0x93, 0x12, 0x34], 3)
       else ([0x93], 1)) := by
  have h := c3_uo_remainder_checksum_iff 3 ⟨7, ⟨1, 2, 3, 5⟩, 0⟩
    ⟨1, 2, 3, 0x1234⟩ [0x93] 1 (by decide)
  rw [h]
  decide

/-- Claim C10: after a successful `c_udp_encode` call the stored
previous UDP header is the current packet's header exactly when the
emitted packet type is IR or IR-DYN, and keeps its previous value for
every other packet type. -/
theorem c10_old_udp_updated_only_at_ir (rfc3095_encode : Nat → Int × rohc_packet_t × Nat)
    (oa_repetitions_nr : Nat) (ctx : sc_udp_context) (udp : udphdr)
    (hok : 0 ≤ (c_udp_encode rfc3095_encode oa_repetitions_nr ctx udp).1) :
    (c_udp_encode rfc3095_encode oa_repetitions_nr ctx udp).2.2.old_udp =
      if (c_udp_encode rfc3095_encode oa_repetitions_nr ctx udp).2.1 =
           rohc_packet_t.PACKET_IR ∨
         (c_udp_encode rfc3095_encode oa_repetitions_nr ctx udp).2.1 =
           rohc_packet_t.PACKET_IR_DYN
      then udp else ctx.old_udp := by
  simp only [c_udp_encode] at hok ⊢
  split_ifs at hok ⊢ with h1 h2 <;>
    first
      | exact absurd hok (not_le.mpr h1)
      | simp_all [udp_changed_udp_dynamic_old_udp]

/-- Claim C10 witness: a successful run that emits an IR packet replaces
the stored header with the current one. -/
theorem c10_old_udp_updated_only_at_ir_witness :
    (c_udp_encode (fun cnt => (10, rohc_packet_t.PACKET_IR, cnt + 1)) 3
        ⟨5, ⟨1, 2, 3, 0⟩, -1⟩ ⟨1, 2, 3, 0x1234⟩).2.2.old_udp =
      if (c_udp_encode (fun cnt => (10, rohc_packet_t.PACKET_IR, cnt + 1)) 3
            ⟨5, ⟨1, 2, 3, 0⟩, -1⟩ ⟨1, 2, 3, 0x1234⟩).2.1 =
           rohc_packet_t.PACKET_IR ∨
         (c_udp_encode (fun cnt => (10, rohc_packet_t.PACKET_IR, cnt + 1)) 3
            ⟨5, ⟨1, 2, 3, 0⟩, -1⟩ ⟨1, 2, 3, 0x1234⟩).2.1 =
           rohc_packet_t.PACKET_IR_DYN
      then ⟨1, 2, 3, 0x1234⟩ else ⟨1, 2, 3, 0⟩ :=
  c10_old_udp_updated_only_at_ir (fun cnt => (10, rohc_packet_t.PACKET_IR, cnt + 1)) 3
    ⟨5, ⟨1, 2, 3, 0⟩, -1⟩ ⟨1, 2, 3, 0x1234⟩ (by decide)

/-- Helper: `uncompressed_change_state` always leaves the context in the
requested state. -/
theorem uncompressed_change_state_state (ctx : c_context) (s : rohc_c_state) :
    (uncompressed_change_state ctx s).state = s := by
  unfold uncompressed_change_state
  split_ifs with h
  · rfl
  · simpa using h

/-- Helper: `uncompressed_change_state` does not touch the mode. -/
theorem uncompressed_change_state_mode (ctx : c_context) (s : rohc_c_state) :
    (uncompressed_change_state ctx s).mode = ctx.mode := by
  unfold uncompressed_change_state
  split_ifs <;> rfl

/-- Helper: `uncompressed_change_state` does not touch the CID. -/
theorem uncompressed_change_state_cid (ctx : c_context) (s : rohc_c_state) :
    (uncompressed_change_state ctx s).cid = ctx.cid := by
  unfold uncompressed_change_state
  split_ifs <;> rfl

/-- Helper: `uncompressed_change_state` does not touch the periodic
refresh counter. -/
theorem uncompressed_change_state_go_back (ctx : c_context) (s : rohc_c_state) :
    (uncompressed_change_state ctx s).specific.go_back_ir_count =
      ctx.specific.go_back_ir_count := by
  unfold uncompressed_change_state
  split_ifs <;> rfl

/-- Helper: the `ir_count` counter after `uncompressed_change_state` is
reset exactly when the state actually changed. -/
theorem uncompressed_change_state_ir_count (ctx : c_context) (s : rohc_c_state) :
    (uncompressed_change_state ctx s).specific.ir_count =
      if ctx.state = s then ctx.specific.ir_count else 0 := by
  unfold uncompressed_change_state
  by_cases h : ctx.state = s
  · rw [if_neg (not_not_intro h), if_pos h]
  · rw [if_pos h, if_neg h]

/-- Helper: the periodic down transition does not touch the CID. -/
theorem uncompressed_periodic_cid (ir_timeout : Nat) (ctx : c_context) :
    (uncompressed_periodic_down_transition ir_timeout ctx).cid = ctx.cid := by
  simp only [uncompressed_periodic_down_transition]
  split_ifs <;> simp [uncompressed_change_state_cid]

/-- Helper: `uncompressed_decide_state` does not touch the CID. -/
theorem uncompressed_decide_state_cid (max_ir_count ir_timeout : Nat)
    (ctx : c_context) :
    (uncompressed_decide_state max_ir_count ir_timeout ctx).cid = ctx.cid := by
  simp only [uncompressed_decide_state]
  split_ifs <;> simp [uncompressed_periodic_cid, uncompressed_change_state_cid]

/-- Helper: when the periodic counter has reached the threshold, the
periodic down transition forces the IR state and resets the counter. -/
theorem uncompressed_periodic_fires (ir_timeout : Nat) (ctx : c_context)
    (h : ir_timeout ≤ ctx.specific.go_back_ir_count) :
    (uncompressed_periodic_down_transition ir_timeout ctx).state =
      rohc_c_state.IR ∧
    (uncompressed_periodic_down_transition ir_timeout ctx).specific.go_back_ir_count
      = 0 := by
  simp only [uncompressed_periodic_down_transition]
  rw [if_pos (show ctx.specific.go_back_ir_count ≥ ir_timeout from h)]
  have hs : (uncompressed_change_state
      { ctx with specific := { ctx.specific with go_back_ir_count := 0 } }
      rohc_c_state.IR).state = rohc_c_state.IR :=
    uncompressed_change_state_state _ _
  rw [if_neg (by simp [hs])]
  exact ⟨hs, by rw [uncompressed_change_state_go_back]⟩

/-- Helper: when the periodic counter is below the threshold, the
periodic down transition leaves the state unchanged. -/
theorem uncompressed_periodic_not_due_state (ir_timeout : Nat) (ctx : c_context)
    (h : ctx.specific.go_back_ir_count < ir_timeout) :
    (uncompressed_periodic_down_transition ir_timeout ctx).state = ctx.state := by
  simp only [uncompressed_periodic_down_transition]
  rw [if_neg (show ¬(ctx.specific.go_back_ir_count ≥ ir_timeout) from not_le.mpr h)]
  split_ifs <;> rfl

/-- Helper: the periodic down transition either forces IR or leaves the
state alone. -/
theorem uncompressed_periodic_state_cases (ir_timeout : Nat) (ctx : c_context) :
    (uncompressed_periodic_down_transition ir_timeout ctx).state =
      rohc_c_state.IR ∨
    (uncompressed_periodic_down_transition ir_timeout ctx).state = ctx.state := by
  by_cases h : ir_timeout ≤ ctx.specific.go_back_ir_count
  · exact Or.inl (uncompressed_periodic_fires ir_timeout ctx h).1
  · exact Or.inr (uncompressed_periodic_not_due_state ir_timeout ctx (not_le.mp h))

/-- Claim C4: the Uncompressed state machine stays within {IR, FO}; an
encode call made in the IR state once `MAX_IR_COUNT` IR packets have
been sent (without a due periodic refresh) moves the state to FO; and in
U-mode, `go_back_ir_count` reaching the periodic `ir_timeout` threshold
resets the counter and forces the state back to IR. -/
theorem c4_uncompressed_state_machine (max_ir_count ir_timeout : Nat)
    (ctx : c_context) :
    ((ctx.state = rohc_c_state.IR ∨ ctx.state = rohc_c_state.FO) →
      ((uncompressed_decide_state max_ir_count ir_timeout ctx).state =
         rohc_c_state.IR ∨
       (uncompressed_decide_state max_ir_count ir_timeout ctx).state =
         rohc_c_state.FO)) ∧
    (ctx.state = rohc_c_state.IR → max_ir_count ≤ ctx.specific.ir_count →
      (ctx.mode = U_MODE → ctx.specific.go_back_ir_count < ir_timeout) →
      (uncompressed_decide_state max_ir_count ir_timeout ctx).state =
        rohc_c_state.FO) ∧
    (ctx.mode = U_MODE → ir_timeout ≤ ctx.specific.go_back_ir_count →
      (uncompressed_decide_state max_ir_count ir_timeout ctx).state =
        rohc_c_state.IR ∧
      (uncompressed_decide_state max_ir_count ir_timeout ctx).specific.go_back_ir_count
        = 0) := by
  refine ⟨?_, ?_, ?_⟩
  · intro hin
    simp only [uncompressed_decide_state]
    set c1 := if ctx.state = rohc_c_state.IR ∧ ctx.specific.ir_count ≥ max_ir_count
      then uncompressed_change_state ctx rohc_c_state.FO else ctx with hc1
    have h1 : c1.state = rohc_c_state.IR ∨ c1.state = rohc_c_state.FO := by
      rw [hc1]
      split_ifs with h
      · exact Or.inr (uncompressed_change_state_state ctx _)
      · exact hin
    by_cases hm : c1.mode = U_MODE
    · rw [if_pos hm]
      rcases uncompressed_periodic_state_cases ir_timeout c1 with h | h
      · exact Or.inl h
      · rw [h]; exact h1
    · rw [if_neg hm]; exact h1
  · intro hIR hcnt hnp
    simp only [uncompressed_decide_state]
    rw [if_pos (show ctx.state = rohc_c_state.IR ∧
      ctx.specific.ir_count ≥ max_ir_count from ⟨hIR, hcnt⟩)]
    by_cases hm : (uncompressed_change_state ctx rohc_c_state.FO).mode = U_MODE
    · rw [if_pos hm]
      have hgb : (uncompressed_change_state ctx
          rohc_c_state.FO).specific.go_back_ir_count < ir_timeout := by
        rw [uncompressed_change_state_go_back]
        exact hnp (by rw [uncompressed_change_state_mode] at hm; exact hm)
      rw [uncompressed_periodic_not_due_state _ _ hgb]
      exact uncompressed_change_state_state ctx _
    · rw [if_neg hm]
      exact uncompressed_change_state_state ctx _
  · intro hU hdue
    simp only [uncompressed_decide_state]
    set c1 := if ctx.state = rohc_c_state.IR ∧ ctx.specific.ir_count ≥ max_ir_count
      then uncompressed_change_state ctx rohc_c_state.FO else ctx with hc1
    have hm : c1.mode = U_MODE := by
      rw [hc1]
      split_ifs with h
      · rw [uncompressed_change_state_mode]; exact hU
      · exact hU
    have hgb : ir_timeout ≤ c1.specific.go_back_ir_count := by
      rw [hc1]
      split_ifs with h
      · rw [uncompressed_change_state_go_back]; exact hdue
      · exact hdue
    rw [if_pos hm]
    exact uncompressed_periodic_fires ir_timeout c1 hgb

/-- Claim C4 witness: a concrete IR context with `ir_count` at the
`MAX_IR_COUNT` threshold in O-mode moves to FO, and a concrete U-mode FO
context with the periodic counter at the `ir_timeout` threshold is
forced back to IR with the counter reset. -/
theorem c4_uncompressed_state_machine_witness :
    ((uncompressed_decide_state 3 100 ⟨rohc_c_state.IR, 2, 0, ⟨3, 0, 0⟩⟩).state =
       rohc_c_state.IR ∨
     (uncompressed_decide_state 3 100 ⟨rohc_c_state.IR, 2, 0, ⟨3, 0, 0⟩⟩).state =
       rohc_c_state.FO) ∧
    (uncompressed_decide_state 3 100 ⟨rohc_c_state.IR, 2, 0, ⟨3, 0, 0⟩⟩).state =
      rohc_c_state.FO ∧
    ((uncompressed_decide_state 3 100 ⟨rohc_c_state.FO, 1, 0, ⟨0, 7, 100⟩⟩).state =
       rohc_c_state.IR ∧
     (uncompressed_decide_state 3 100
        ⟨rohc_c_state.FO, 1, 0, ⟨0, 7, 100⟩⟩).specific.go_back_ir_count = 0) :=
  ⟨(c4_uncompressed_state_machine 3 100 ⟨rohc_c_state.IR, 2, 0, ⟨3, 0, 0⟩⟩).1
      (by decide),
   (c4_uncompressed_state_machine 3 100 ⟨rohc_c_state.IR, 2, 0, ⟨3, 0, 0⟩⟩).2.1
      (by decide) (by decide) (by decide),
   (c4_uncompressed_state_machine 3 100 ⟨rohc_c_state.FO, 1, 0, ⟨0, 7, 100⟩⟩).2.2
      (by decide) (by decide)⟩

/-- Helper: in the IR state, `uncompressed_code_packet` builds an IR
packet and increments `ir_count`. -/
theorem uncompressed_code_packet_IR (crc8 : List Nat → Nat) (c : c_context)
    (ip : List Nat) (h : c.state = rohc_c_state.IR) :
    uncompressed_code_packet crc8 c ip =
      ((uncompressed_code_IR_packet crc8 c.cid).2.2, rohc_packet_t.PACKET_IR,
       (uncompressed_code_IR_packet crc8 c.cid).2.1,
       (uncompressed_code_IR_packet crc8 c.cid).1,
       { c with specific :=
           { c.specific with ir_count := c.specific.ir_count + 1 } }) := by
  unfold uncompressed_code_packet
  split <;> simp_all

/-- Claim C8: whenever the Uncompressed profile emits an IR packet
(small-CID configuration), the bytes written are the Add-CID bytes, the
discriminator `0xFC`, the profile byte `0x00`, and a CRC-8 computed over
all the bytes emitted so far with the CRC byte itself zeroed; the
returned payload offset is 0 and the returned length covers exactly the
emitted bytes. -/
theorem c8_ir_packet_layout (crc8 : List Nat → Nat) (max_ir_count ir_timeout : Nat)
    (ctx : c_context) (ip : List Nat) (hcid : ctx.cid ≤ 15)
    (hIR : (uncompressed_decide_state max_ir_count ir_timeout ctx).state =
      rohc_c_state.IR) :
    (c_uncompressed_encode crc8 max_ir_count ir_timeout ctx ip).2.1 =
      rohc_packet_t.PACKET_IR ∧
    (c_uncompressed_encode crc8 max_ir_count ir_timeout ctx ip).2.2.2.1 =
      (if ctx.cid = 0 then [] else [0xe0 ||| ctx.cid]) ++
        [0xfc, 0x00,
         crc8 ((if ctx.cid = 0 then [] else [0xe0 ||| ctx.cid]) ++ [0xfc, 0x00, 0])] ∧
    (c_uncompressed_encode crc8 max_ir_count ir_timeout ctx ip).2.2.1 = 0 ∧
    (c_uncompressed_encode crc8 max_ir_count ir_timeout ctx ip).1 =
      ((c_uncompressed_encode crc8 max_ir_count ir_timeout ctx ip).2.2.2.1.length : Int) := by
  have hd := uncompressed_decide_state_cid max_ir_count ir_timeout ctx
  simp only [c_uncompressed_encode]
  rw [uncompressed_code_packet_IR crc8 _ ip hIR, hd]
  unfold uncompressed_code_IR_packet code_cid_values_small
  by_cases h0 : ctx.cid = 0 <;> simp [h0]

/-- Claim C8 witness: a fresh IR context with CID 5 emits the Add-CID
octet `0xE5`, the discriminator, the profile byte and the CRC byte, with
payload offset 0. -/
theorem c8_ir_packet_layout_witness :
    (c_uncompressed_encode (fun l => l.length) 3 100
        ⟨rohc_c_state.IR, 2, 5, ⟨0, 0, 0⟩⟩ [0x45]).2.1 = rohc_packet_t.PACKET_IR ∧
    (c_uncompressed_encode (fun l => l.length) 3 100
        ⟨rohc_c_state.IR, 2, 5, ⟨0, 0, 0⟩⟩ [0x45]).2.2.2.1 =
      (if (5 : Nat) = 0 then [] else [0xe0 ||| 5]) ++
        [0xfc, 0x00,
         (fun l : List Nat => l.length)
           ((if (5 : Nat) = 0 then [] else [0xe0 ||| 5]) ++ [0xfc, 0x00, 0])] ∧
    (c_uncompressed_encode (fun l => l.length) 3 100
        ⟨rohc_c_state.IR, 2, 5, ⟨0, 0, 0⟩⟩ [0x45]).2.2.1 = 0 ∧
    (c_uncompressed_encode (fun l => l.length) 3 100
        ⟨rohc_c_state.IR, 2, 5, ⟨0, 0, 0⟩⟩ [0x45]).1 =
      ((c_uncompressed_encode (fun l => l.length) 3 100
        ⟨rohc_c_state.IR, 2, 5, ⟨0, 0, 0⟩⟩ [0x45]).2.2.2.1.length : Int) :=
  c8_ir_packet_layout (fun l => l.length) 3 100 ⟨rohc_c_state.IR, 2, 5, ⟨0, 0, 0⟩⟩
    [0x45] (by decide) (by decide)

/-- Helper: `uncompressed_change_mode` always leaves the context in the
requested mode. -/
theorem uncompressed_change_mode_mode (ctx : c_context) (m : Nat) :
    (uncompressed_change_mode ctx m).mode = m := by
  unfold uncompressed_change_mode
  split_ifs with h
  · rw [uncompressed_change_state_mode]
  · exact not_not.mp h

/-- Helper: the option-parsing loop of the feedback handler only writes
at buffer positions strictly greater than the position it starts at, so
every byte at or before the start position is left unchanged. -/
theorem parse_loop_getD_lo (i : Nat) : ∀ (fuel : Nat) (data : List Nat)
    (p remaining crc_in : Nat) (used : Bool), i ≤ p →
    (parse_loop fuel data p remaining crc_in used).1.getD i 0 =
      data.getD i 0 := by
  intro fuel
  induction fuel with
  | zero =>
    intro data p remaining crc_in used hip
    cases remaining <;> rfl
  | succ f ih =>
    intro data p remaining crc_in used hip
    cases remaining with
    | zero => rfl
    | succ r =>
      simp only [parse_loop]
      split_ifs with hopt
      · rw [ih _ _ _ _ _ (by omega)]
        simp [List.getD_eq_getElem?_getD,
          List.getElem?_set_ne (show p + 1 ≠ i by omega)]
      · exact ih _ _ _ _ _ (by omega)

/-- Helper: for a FEEDBACK-2, the handler is the core applied to the
mode field, the parsed options and the ack type. -/
theorem c_uncompressed_feedback_eq_core (crc8 : List Nat → Nat)
    (ctx : c_context) (fb : c_feedback) (h2 : fb.fbtype = 2) :
    c_uncompressed_feedback crc8 ctx fb =
      uncompressed_feedback_2_core crc8 ctx
        ((fb.data.getD fb.specific_offset 0 >>> 4) &&& 3)
        (parse_feedback_options fb.data (fb.specific_offset + 2)
          (fb.specific_size - 2) 0 false)
        fb.acktype := by
  simp only [c_uncompressed_feedback, h2]
  norm_num

/-- Helper: the ack-type switch does not touch the mode. -/
theorem uncompressed_feedback_apply_acktype_mode (ctx : c_context)
    (ack : rohc_ack_type) :
    (uncompressed_feedback_apply_acktype ctx ack).mode = ctx.mode := by
  cases ack <;>
    simp [uncompressed_feedback_apply_acktype, uncompressed_change_state_mode]

/-- Helper: for a FEEDBACK-2, the buffer returned by the feedback
handler is exactly the buffer left by the option-parsing loop, on every
path (accepted or discarded). -/
theorem c_uncompressed_feedback_data (crc8 : List Nat → Nat) (ctx : c_context)
    (fb : c_feedback) (h2 : fb.fbtype = 2) :
    (c_uncompressed_feedback crc8 ctx fb).1 =
      (parse_feedback_options fb.data (fb.specific_offset + 2)
        (fb.specific_size - 2) 0 false).1 := by
  rw [c_uncompressed_feedback_eq_core crc8 ctx fb h2]
  unfold uncompressed_feedback_2_core
  split_ifs <;> rfl

/-- Claim C9: the Uncompressed feedback handler is not read-only on its
input: when a FEEDBACK-2 carries a CRC option as its first option, the
option's value byte inside the caller-supplied buffer is overwritten
with zero and never restored, so the buffer returned by the handler
differs from the one passed in whenever that byte was non-zero. -/
theorem c9_feedback_overwrites_crc_byte (crc8 : List Nat → Nat) (ctx : c_context)
    (fb : c_feedback) (h2 : fb.fbtype = 2) (hsz : 3 ≤ fb.specific_size)
    (hopt : fb.data.getD (fb.specific_offset + 2) 0 >>> 4 = 1)
    (hlen : fb.specific_offset + 3 < fb.data.length)
    (hval : fb.data.getD (fb.specific_offset + 3) 0 ≠ 0) :
    (c_uncompressed_feedback crc8 ctx fb).1.getD (fb.specific_offset + 3) 0 = 0 ∧
    (c_uncompressed_feedback crc8 ctx fb).1 ≠ fb.data := by
  have hdata := c_uncompressed_feedback_data crc8 ctx fb h2
  have hzero : (parse_feedback_options fb.data (fb.specific_offset + 2)
      (fb.specific_size - 2) 0 false).1.getD (fb.specific_offset + 3) 0 = 0 := by
    obtain ⟨k, hk⟩ : ∃ k, fb.specific_size - 2 = k + 1 :=
      ⟨fb.specific_size - 3, by omega⟩
    unfold parse_feedback_options
    rw [hk]
    simp only [parse_loop]
    rw [if_pos hopt]
    have h23 : fb.specific_offset + 2 + 1 = fb.specific_offset + 3 := by omega
    rw [h23, parse_loop_getD_lo _ _ _ _ _ _ _ (by omega)]
    simp [List.getD_eq_getElem?_getD, List.getElem?_set_self',
      List.getElem?_eq_getElem hlen]
  constructor
  · rw [hdata]
    exact hzero
  · intro heq
    apply hval
    rw [← heq, hdata]
    exact hzero

/-- Claim C9 witness: a concrete FEEDBACK-2 whose first option is a CRC
option with value byte `0x5A` comes back from the handler with that byte
zeroed, hence different from the caller's bytes. -/
theorem c9_feedback_overwrites_crc_byte_witness :
    (c_uncompressed_feedback (fun _ => 0) ⟨rohc_c_state.IR, 1, 0, ⟨0, 0, 0⟩⟩
        ⟨2, rohc_ack_type.ACK, [0x00, 0x00, 0x11, 0x5a], 0, 4⟩).1.getD 3 0 = 0 ∧
    (c_uncompressed_feedback (fun _ => 0) ⟨rohc_c_state.IR, 1, 0, ⟨0, 0, 0⟩⟩
        ⟨2, rohc_ack_type.ACK, [0x00, 0x00, 0x11, 0x5a], 0, 4⟩).1 ≠
      [0x00, 0x00, 0x11, 0x5a] := by
  have h := c9_feedback_overwrites_crc_byte (fun _ => 0)
    ⟨rohc_c_state.IR, 1, 0, ⟨0, 0, 0⟩⟩
    ⟨2, rohc_ack_type.ACK, [0x00, 0x00, 0x11, 0x5a], 0, 4⟩
    (by decide) (by decide) (by decide) (by decide) (by decide)
  simpa using h

/-- Claim C5: for a FEEDBACK-2 whose mode field is non-zero and differs
from the current mode, the mode change is applied to the context if and
only if the feedback carried a CRC option whose value equals the CRC-8
computed over the whole feedback with the CRC byte zeroed; and a
feedback whose CRC option mismatches is discarded with no change at all
to the context. -/
theorem c5_mode_change_needs_valid_crc (crc8 : List Nat → Nat) (ctx : c_context)
    (fb : c_feedback) (h2 : fb.fbtype = 2)
    (hm : (fb.data.getD fb.specific_offset 0 >>> 4) &&& 3 ≠ 0)
    (hne : (fb.data.getD fb.specific_offset 0 >>> 4) &&& 3 ≠ ctx.mode) :
    ((c_uncompressed_feedback crc8 ctx fb).2.mode =
        (fb.data.getD fb.specific_offset 0 >>> 4) &&& 3 ↔
      ((parse_feedback_options fb.data (fb.specific_offset + 2)
          (fb.specific_size - 2) 0 false).2.2 = true ∧
       (parse_feedback_options fb.data (fb.specific_offset + 2)
          (fb.specific_size - 2) 0 false).2.1 =
         crc8 (parse_feedback_options fb.data (fb.specific_offset + 2)
           (fb.specific_size - 2) 0 false).1)) ∧
    ((parse_feedback_options fb.data (fb.specific_offset + 2)
        (fb.specific_size - 2) 0 false).2.2 = true ∧
     (parse_feedback_options fb.data (fb.specific_offset + 2)
        (fb.specific_size - 2) 0 false).2.1 ≠
       crc8 (parse_feedback_options fb.data (fb.specific_offset + 2)
         (fb.specific_size - 2) 0 false).1 →
      (c_uncompressed_feedback crc8 ctx fb).2 = ctx) := by
  rw [c_uncompressed_feedback_eq_core crc8 ctx fb h2]
  set m := (fb.data.getD fb.specific_offset 0 >>> 4) &&& 3 with hmdef
  set pr := parse_feedback_options fb.data (fb.specific_offset + 2)
    (fb.specific_size - 2) 0 false with hprdef
  have f2 : pr.2.2 = true → pr.2.1 ≠ crc8 pr.1 →
      (uncompressed_feedback_2_core crc8 ctx m pr fb.acktype).2 = ctx := by
    intro hu hcrc
    unfold uncompressed_feedback_2_core
    rw [if_pos ⟨hu, hcrc⟩]
  have f1 : pr.2.2 = true → pr.2.1 = crc8 pr.1 →
      (uncompressed_feedback_2_core crc8 ctx m pr fb.acktype).2.mode = m := by
    intro hu hcrc
    unfold uncompressed_feedback_2_core
    rw [if_neg (by tauto), if_pos ⟨hm, hu⟩]
    rw [uncompressed_feedback_apply_acktype_mode, uncompressed_change_mode_mode]
  have f3 : ¬(pr.2.2 = true) →
      (uncompressed_feedback_2_core crc8 ctx m pr fb.acktype).2.mode = ctx.mode := by
    intro hu
    unfold uncompressed_feedback_2_core
    rw [if_neg (by tauto), if_neg (by tauto)]
    rw [uncompressed_feedback_apply_acktype_mode]
  constructor
  · constructor
    · intro hmode
      by_cases hu : pr.2.2 = true
      · by_cases hcrc : pr.2.1 = crc8 pr.1
        · exact ⟨hu, hcrc⟩
        · rw [f2 hu hcrc] at hmode
          exact absurd hmode.symm hne
      · rw [f3 hu] at hmode
        exact absurd hmode.symm hne
    · intro hok
      exact f1 hok.1 hok.2
  · intro hbad
    exact f2 hbad.1 hbad.2

/-- Claim C5 witness: a concrete FEEDBACK-2 requesting O-mode with a
matching CRC option (under a CRC function that is zero on the zeroed
feedback) is honored, and the claim's equivalence holds on it. -/
theorem c5_mode_change_needs_valid_crc_witness :
    ((c_uncompressed_feedback (fun _ => 0) ⟨rohc_c_state.FO, 1, 0, ⟨0, 4, 2⟩⟩
        ⟨2, rohc_ack_type.ACK, [0x20, 0x00, 0x11, 0x00], 0, 4⟩).2.mode =
        (([0x20, 0x00, 0x11, 0x00].getD 0 0 >>> 4) &&& 3) ↔
      ((parse_feedback_options [0x20, 0x00, 0x11, 0x00] (0 + 2) (4 - 2) 0 false).2.2
          = true ∧
       (parse_feedback_options [0x20, 0x00, 0x11, 0x00] (0 + 2) (4 - 2) 0 false).2.1 =
         (fun _ : List Nat => 0)
           (parse_feedback_options [0x20, 0x00, 0x11, 0x00] (0 + 2) (4 - 2) 0 false).1)) ∧
    ((parse_feedback_options [0x20, 0x00, 0x11, 0x00] (0 + 2) (4 - 2) 0 false).2.2
        = true ∧
     (parse_feedback_options [0x20, 0x00, 0x11, 0x00] (0 + 2) (4 - 2) 0 false).2.1 ≠
       (fun _ : List Nat => 0)
         (parse_feedback_options [0x20, 0x00, 0x11, 0x00] (0 + 2) (4 - 2) 0 false).1 →
      (c_uncompressed_feedback (fun _ => 0) ⟨rohc_c_state.FO, 1, 0, ⟨0, 4, 2⟩⟩
        ⟨2, rohc_ack_type.ACK, [0x20, 0x00, 0x11, 0x00], 0, 4⟩).2 =
        ⟨rohc_c_state.FO, 1, 0, ⟨0, 4, 2⟩⟩) :=
  c5_mode_change_needs_valid_crc (fun _ => 0) ⟨rohc_c_state.FO, 1, 0, ⟨0, 4, 2⟩⟩
    ⟨2, rohc_ack_type.ACK, [0x20, 0x00, 0x11, 0x00], 0, 4⟩
    (by decide) (by decide) (by decide)

/-- Claim C6 counterexample: an accepted FEEDBACK-2 with ack-type NACK
delivered to a context in the IR state leaves the state at IR — the
handler does not set it to FO as the claim asserts (`case NACK:` is an
empty branch in the source). -/
theorem c6_nack_counterexample :
    (c_uncompressed_feedback (fun _ => 0) ⟨rohc_c_state.IR, 1, 0, ⟨0, 0, 0⟩⟩
        ⟨2, rohc_ack_type.NACK, [0x00, 0x00], 0, 2⟩).2.state ≠
      rohc_c_state.FO := by
  decide

/-- Claim C6 as amended: a FEEDBACK-2 with ack-type NACK that does not
carry an honored mode change leaves the Uncompressed context — its state
included — completely unchanged: the profile ignores NACK (only
STATIC-NACK acts on the state). -/
theorem c6_nack_ignored (crc8 : List Nat → Nat) (ctx : c_context)
    (fb : c_feedback) (h2 : fb.fbtype = 2)
    (hn : fb.acktype = rohc_ack_type.NACK)
    (hnm : ¬(((fb.data.getD fb.specific_offset 0 >>> 4) &&& 3) ≠ 0 ∧
      (parse_feedback_options fb.data (fb.specific_offset + 2)
        (fb.specific_size - 2) 0 false).2.2 = true)) :
    (c_uncompressed_feedback crc8 ctx fb).2 = ctx := by
  rw [c_uncompressed_feedback_eq_core crc8 ctx fb h2, hn]
  unfold uncompressed_feedback_2_core
  split_ifs with h1 <;> rfl

/-- Claim C6 amended witness: the concrete NACK feedback of the
counterexample leaves the context unchanged. -/
theorem c6_nack_ignored_witness :
    (c_uncompressed_feedback (fun _ => 0) ⟨rohc_c_state.IR, 1, 0, ⟨0, 0, 0⟩⟩
        ⟨2, rohc_ack_type.NACK, [0x00, 0x00], 0, 2⟩).2 =
      ⟨rohc_c_state.IR, 1, 0, ⟨0, 0, 0⟩⟩ :=
  c6_nack_ignored (fun _ => 0) ⟨rohc_c_state.IR, 1, 0, ⟨0, 0, 0⟩⟩
    ⟨2, rohc_ack_type.NACK, [0x00, 0x00], 0, 2⟩ (by decide) (by decide) (by decide)

/-- Helper: the FEEDBACK-2 core on an accepted STATIC-NACK forces the IR
state on top of the possible mode change. -/
theorem feedback_2_core_static_nack (crc8 : List Nat → Nat) (ctx : c_context)
    (mode : Nat) (pr : List Nat × Nat × Bool)
    (hacc : ¬(pr.2.2 = true ∧ pr.2.1 ≠ crc8 pr.1)) :
    (uncompressed_feedback_2_core crc8 ctx mode pr rohc_ack_type.STATIC_NACK).2 =
      uncompressed_change_state
        (if mode ≠ 0 ∧ pr.2.2 = true then uncompressed_change_mode ctx mode else ctx)
        rohc_c_state.IR := by
  unfold uncompressed_feedback_2_core
  rw [if_neg hacc]
  rfl

/-- Helper: if the context was not in IR with its `ir_count` at the
threshold, a mode change keeps `ir_count` strictly below the threshold
whenever it lands in the IR state. -/
theorem uncompressed_change_mode_ir_count_lt (ctx : c_context) (m maxc : Nat)
    (hir : ctx.state = rohc_c_state.IR → ctx.specific.ir_count < maxc)
    (hpos : 0 < maxc)
    (h : (uncompressed_change_mode ctx m).state = rohc_c_state.IR) :
    (uncompressed_change_mode ctx m).specific.ir_count < maxc := by
  unfold uncompressed_change_mode at *
  split_ifs at * with hmm
  · rw [uncompressed_change_state_ir_count]
    split_ifs with hcs
    · exact hir hcs
    · exact hpos
  · exact hir h

/-- Helper: an encode call on a context in the IR state with `ir_count`
strictly below `MAX_IR_COUNT` emits an IR packet. -/
theorem c_uncompressed_encode_emits_ir (crc8 : List Nat → Nat)
    (max_ir_count ir_timeout : Nat) (c : c_context) (ip : List Nat)
    (hst : c.state = rohc_c_state.IR)
    (hcnt : c.specific.ir_count < max_ir_count) :
    (c_uncompressed_encode crc8 max_ir_count ir_timeout c ip).2.1 =
      rohc_packet_t.PACKET_IR := by
  have hds : (uncompressed_decide_state max_ir_count ir_timeout c).state =
      rohc_c_state.IR := by
    simp only [uncompressed_decide_state]
    rw [if_neg (show ¬(c.state = rohc_c_state.IR ∧
        c.specific.ir_count ≥ max_ir_count) from
      fun hand => absurd hand.2 (not_le.mpr hcnt))]
    split_ifs with hmU
    · rcases uncompressed_periodic_state_cases ir_timeout c with h | h
      · exact h
      · rw [h]; exact hst
    · exact hst
  simp only [c_uncompressed_encode]
  rw [uncompressed_code_packet_IR crc8 _ ip hds]

/-- Claim C7 counterexample: an accepted STATIC-NACK delivered while the
context is already in the IR state with `ir_count` at the `MAX_IR_COUNT`
threshold (here 3) leaves the state at IR — the state *is* IR — yet the
next encode call emits a Normal packet, not an IR packet, because
`uncompressed_change_state` does not reset `ir_count` when the state
does not change and the next state decision immediately moves to FO. -/
theorem c7_static_nack_counterexample :
    (c_uncompressed_feedback (fun _ => 0) ⟨rohc_c_state.IR, 2, 0, ⟨3, 0, 0⟩⟩
        ⟨2, rohc_ack_type.STATIC_NACK, [0x00, 0x00], 0, 2⟩).2.state =
      rohc_c_state.IR ∧
    (c_uncompressed_encode (fun _ => 0) 3 100
        (c_uncompressed_feedback (fun _ => 0) ⟨rohc_c_state.IR, 2, 0, ⟨3, 0, 0⟩⟩
          ⟨2, rohc_ack_type.STATIC_NACK, [0x00, 0x00], 0, 2⟩).2 [0x45]).2.1 ≠
      rohc_packet_t.PACKET_IR := by
  decide

/-- Claim C7 as amended: an accepted FEEDBACK-2 with ack-type STATIC-NACK
sets the context state to IR; and provided the context was not already
sitting in IR with `ir_count` at the `MAX_IR_COUNT` threshold (with a
positive threshold), the next encode call emits an IR packet. -/
theorem c7_static_nack_forces_ir (crc8 : List Nat → Nat)
    (max_ir_count ir_timeout : Nat) (ctx : c_context) (fb : c_feedback)
    (ip : List Nat) (h2 : fb.fbtype = 2)
    (hs : fb.acktype = rohc_ack_type.STATIC_NACK)
    (hacc : ¬((parse_feedback_options fb.data (fb.specific_offset + 2)
        (fb.specific_size - 2) 0 false).2.2 = true ∧
      (parse_feedback_options fb.data (fb.specific_offset + 2)
        (fb.specific_size - 2) 0 false).2.1 ≠
        crc8 (parse_feedback_options fb.data (fb.specific_offset + 2)
          (fb.specific_size - 2) 0 false).1))
    (hir : ctx.state = rohc_c_state.IR →
      ctx.specific.ir_count < max_ir_count)
    (hpos : 0 < max_ir_count) :
    (c_uncompressed_feedback crc8 ctx fb).2.state = rohc_c_state.IR ∧
    (c_uncompressed_encode crc8 max_ir_count ir_timeout
        (c_uncompressed_feedback crc8 ctx fb).2 ip).2.1 =
      rohc_packet_t.PACKET_IR := by
  have hres : (c_uncompressed_feedback crc8 ctx fb).2 =
      uncompressed_change_state
        (if ((fb.data.getD fb.specific_offset 0 >>> 4) &&& 3) ≠ 0 ∧
            (parse_feedback_options fb.data (fb.specific_offset + 2)
              (fb.specific_size - 2) 0 false).2.2 = true
         then uncompressed_change_mode ctx
           ((fb.data.getD fb.specific_offset 0 >>> 4) &&& 3)
         else ctx)
        rohc_c_state.IR := by
    rw [c_uncompressed_feedback_eq_core crc8 ctx fb h2, hs,
      feedback_2_core_static_nack crc8 ctx _ _ hacc]
  rw [hres]
  set c1 := if ((fb.data.getD fb.specific_offset 0 >>> 4) &&& 3) ≠ 0 ∧
      (parse_feedback_options fb.data (fb.specific_offset + 2)
        (fb.specific_size - 2) 0 false).2.2 = true
    then uncompressed_change_mode ctx
      ((fb.data.getD fb.specific_offset 0 >>> 4) &&& 3)
    else ctx with hc1def
  have hc1 : c1.state = rohc_c_state.IR →
      c1.specific.ir_count < max_ir_count := by
    rw [hc1def]
    split_ifs with hcond
    · intro h
      exact uncompressed_change_mode_ir_count_lt ctx _ max_ir_count hir hpos h
    · exact hir
  have hst : (uncompressed_change_state c1 rohc_c_state.IR).state =
      rohc_c_state.IR := uncompressed_change_state_state _ _
  have hcnt : (uncompressed_change_state c1
      rohc_c_state.IR).specific.ir_count < max_ir_count := by
    rw [uncompressed_change_state_ir_count]
    split_ifs with hcs
    · exact hc1 hcs
    · exact hpos
  exact ⟨hst,
    c_uncompressed_encode_emits_ir crc8 max_ir_count ir_timeout _ ip hst hcnt⟩

/-- Claim C7 amended witness: an accepted STATIC-NACK on a concrete FO
context forces IR, and the following encode call emits an IR packet. -/
theorem c7_static_nack_forces_ir_witness :
    (c_uncompressed_feedback (fun _ => 0) ⟨rohc_c_state.FO, 2, 0, ⟨0, 4, 7⟩⟩
        ⟨2, rohc_ack_type.STATIC_NACK, [0x00, 0x00], 0, 2⟩).2.state =
      rohc_c_state.IR ∧
    (c_uncompressed_encode (fun _ => 0) 3 100
        (c_uncompressed_feedback (fun _ => 0) ⟨rohc_c_state.FO, 2, 0, ⟨0, 4, 7⟩⟩
          ⟨2, rohc_ack_type.STATIC_NACK, [0x00, 0x00], 0, 2⟩).2 [0x45]).2.1 =
      rohc_packet_t.PACKET_IR :=
  c7_static_nack_forces_ir (fun _ => 0) 3 100 ⟨rohc_c_state.FO, 2, 0, ⟨0, 4, 7⟩⟩
    ⟨2, rohc_ack_type.STATIC_NACK, [0x00, 0x00], 0, 2⟩ [0x45]
    (by decide) (by decide) (by decide) (by decide) (by decide)

